import Mathlib

/-!
Verification of the healthcare-insurance-cost-analysis repository.

The development shallowly embeds the two Python scripts:

* `healthcare_dashboard.py` — the Streamlit dashboard: the sidebar filter
  block (`filtered_df`), the smoking-multiplier metric block
  (`smoker_multiplier`), the `pd.cut` age-grouping block, the premium
  calculator block (`total_premium`), and the `load_data` candidate-file
  loop.
* `pythonprogramtocleadataforpowerbiandalsogroupcategories.py` — the
  bucketizer: `charges_band`, `bmi_category`, `age_group`,
  `age_group_label`, the 2-decimal rounding of charges, and the
  row-augmenting pipeline.

Machine floats of the scripts are embedded as exact rationals (`ℚ`);
dataframes as `List Record` in row order.
-/

/-- One row of the dataset: the seven-column schema
`age, sex, bmi, children, smoker, region, charges` of the scripts
(numeric columns as `ℚ`, categorical columns as strings). -/
structure Record where
  age : ℚ
  sex : String
  bmi : ℚ
  children : ℚ
  smoker : String
  region : String
  charges : ℚ
deriving DecidableEq, Repr

/-- The sidebar filter state of `healthcare_dashboard.py`:
`smoker_filter`, `region_filter` (strings, `"All"` meaning no constraint)
and the two range sliders `age_range = (age_lo, age_hi)`,
`bmi_range = (bmi_lo, bmi_hi)`. -/
structure FilterCriteria where
  smoker : String
  region : String
  age_lo : ℚ
  age_hi : ℚ
  bmi_lo : ℚ
  bmi_hi : ℚ
deriving DecidableEq, Repr

/-- The module-level filter block of `healthcare_dashboard.py`
(lines 140–151): first the conjunctive age/BMI range mask, then a
smoker-equality filter when `smoker_filter != 'All'`, then a
region-equality filter when `region_filter != 'All'`. -/
def filtered_df (df : List Record) (c : FilterCriteria) : List Record :=
  let step1 := df.filter (fun r =>
    decide (c.age_lo ≤ r.age) && decide (r.age ≤ c.age_hi) &&
    decide (c.bmi_lo ≤ r.bmi) && decide (r.bmi ≤ c.bmi_hi))
  let step2 := if c.smoker ≠ "All" then step1.filter (fun r => r.smoker == c.smoker) else step1
  let step3 := if c.region ≠ "All" then step2.filter (fun r => r.region == c.region) else step2
  step3

/-- The pass predicate of the spec, as one boolean conjunction:
age and bmi in range, and each categorical criterion either `"All"` or
matching the record. -/
def passes (c : FilterCriteria) (r : Record) : Bool :=
  decide (c.age_lo ≤ r.age) && decide (r.age ≤ c.age_hi) &&
  decide (c.bmi_lo ≤ r.bmi) && decide (r.bmi ≤ c.bmi_hi) &&
  (c.smoker == "All" || r.smoker == c.smoker) &&
  (c.region == "All" || r.region == c.region)

/-- The three sequential filters of the dashboard collapse to a single
`List.filter` with the conjunctive pass predicate. -/
theorem filtered_df_eq_filter (df : List Record) (c : FilterCriteria) :
    filtered_df df c = df.filter (passes c) := by
  unfold filtered_df
  split_ifs with hs hr hr <;>
    simp only [List.filter_filter] <;>
    refine List.filter_congr (fun r _ => ?_) <;>
    unfold passes
  · have hs' : (c.smoker == "All") = false := by simp [hs]
    have hr' : (c.region == "All") = false := by simp [hr]
    rw [hs', hr']
    simp only [Bool.false_or]
    ac_rfl
  · simp only [ne_eq, not_not] at hr
    have hs' : (c.smoker == "All") = false := by simp [hs]
    have hr' : (c.region == "All") = true := by simp [hr]
    rw [hs', hr']
    simp only [Bool.false_or, Bool.true_or, Bool.and_true]
    ac_rfl
  · simp only [ne_eq, not_not] at hs
    have hs' : (c.smoker == "All") = true := by simp [hs]
    have hr' : (c.region == "All") = false := by simp [hr]
    rw [hs', hr']
    simp only [Bool.false_or, Bool.true_or, Bool.true_and, Bool.and_true]
    ac_rfl
  · simp only [ne_eq, not_not] at hs hr
    have hs' : (c.smoker == "All") = true := by simp [hs]
    have hr' : (c.region == "All") = true := by simp [hr]
    rw [hs', hr']
    simp only [Bool.true_or, Bool.and_true]

/-- C1: a record is in the filtered result iff it is in the dataset, its
age lies in `[age_lo, age_hi]`, its bmi lies in `[bmi_lo, bmi_hi]` (both
inclusive), the smoker criterion is `"All"` or equals the record's smoker
field, and the region criterion is `"All"` or equals the record's region
field. -/
theorem filtered_df_mem_iff (df : List Record) (c : FilterCriteria) (r : Record) :
    r ∈ filtered_df df c ↔
      r ∈ df ∧ c.age_lo ≤ r.age ∧ r.age ≤ c.age_hi ∧
      c.bmi_lo ≤ r.bmi ∧ r.bmi ≤ c.bmi_hi ∧
      (c.smoker = "All" ∨ r.smoker = c.smoker) ∧
      (c.region = "All" ∨ r.region = c.region) := by
  rw [filtered_df_eq_filter, List.mem_filter]
  simp [passes, and_assoc]

/-- C9: the filter operation is idempotent — filtering an already
filtered dataset with the same criteria returns it unchanged. -/
theorem filtered_df_idempotent (df : List Record) (c : FilterCriteria) :
    filtered_df (filtered_df df c) c = filtered_df df c := by
  simp only [filtered_df_eq_filter, List.filter_filter]
  refine List.filter_congr (fun r _ => ?_)
  cases passes c r <;> simp

/-- C10: the filtered result is an order-preserving, duplication-free
selection from the dataset — a `List.Sublist` of it. -/
theorem filtered_df_sublist (df : List Record) (c : FilterCriteria) :
    (filtered_df df c).Sublist df := by
  rw [filtered_df_eq_filter]
  exact List.filter_sublist df

/-- Arithmetic mean of a list of rationals, as pandas `Series.mean`
(sum over count; the empty list gives `0/0 = 0` in `ℚ`, matching the
guarded uses below). -/
def mean (l : List ℚ) : ℚ := l.sum / l.length

/-- The key-metrics block of `healthcare_dashboard.py` (lines 154–163):
when the filtered set is non-empty, take the charges of its smoker and
non-smoker rows, guard each group mean (`0` for an empty smoker group,
`1` for an empty non-smoker group), and divide when the denominator is
positive, else `0`; when the filtered set is empty the multiplier is
`0`. -/
def smoker_multiplier (filtered : List Record) : ℚ :=
  if filtered.length > 0 then
    let smoker_yes_data := (filtered.filter (fun r => r.smoker == "yes")).map Record.charges
    let smoker_no_data := (filtered.filter (fun r => r.smoker == "no")).map Record.charges
    let smoker_yes_mean := if smoker_yes_data.length > 0 then mean smoker_yes_data else 0
    let smoker_no_mean := if smoker_no_data.length > 0 then mean smoker_no_data else 1
    if smoker_no_mean > 0 then smoker_yes_mean / smoker_no_mean else 0
  else 0

theorem mean_nil : mean [] = 0 := by
  simp [mean]

theorem mean_nonneg (l : List ℚ) (h : ∀ q ∈ l, 0 ≤ q) : 0 ≤ mean l :=
  div_nonneg (List.sum_nonneg h) (Nat.cast_nonneg _)

/-- C2: under the data-model invariant `charges ≥ 0`, the smoking
multiplier is the ratio of group means whenever a non-smoker row exists,
is `0` on the empty filtered set, uses denominator `1` when the
non-empty filtered set has no non-smoker row, and is `0` on an
all-non-smoker set whose mean charges are nonzero. -/
theorem smoker_multiplier_spec (l : List Record)
    (hpos : ∀ r ∈ l, 0 ≤ r.charges) :
    ((∃ r ∈ l, r.smoker = "no") →
        smoker_multiplier l =
          mean ((l.filter (fun r => r.smoker == "yes")).map Record.charges) /
            mean ((l.filter (fun r => r.smoker == "no")).map Record.charges)) ∧
    (l = [] → smoker_multiplier l = 0) ∧
    (l ≠ [] → (∀ r ∈ l, r.smoker ≠ "no") →
        smoker_multiplier l =
          mean ((l.filter (fun r => r.smoker == "yes")).map Record.charges) / 1) ∧
    ((∀ r ∈ l, r.smoker = "no") → mean (l.map Record.charges) ≠ 0 →
        smoker_multiplier l = 0) := by
  refine ⟨?_, ?_, ?_, ?_⟩
  · rintro ⟨r, hr, hno⟩
    have hlen : l.length > 0 := List.length_pos.mpr (List.ne_nil_of_mem hr)
    have hrno : r ∈ l.filter (fun r => r.smoker == "no") :=
      List.mem_filter.mpr ⟨hr, by simp [hno]⟩
    have hnolen : ((l.filter (fun r => r.smoker == "no")).map Record.charges).length > 0 := by
      simp only [List.length_map]
      exact List.length_pos.mpr (List.ne_nil_of_mem hrno)
    have hyes :
        (if ((l.filter (fun r => r.smoker == "yes")).map Record.charges).length > 0 then
            mean ((l.filter (fun r => r.smoker == "yes")).map Record.charges) else 0) =
          mean ((l.filter (fun r => r.smoker == "yes")).map Record.charges) := by
      split_ifs with h
      · rfl
      · have : (l.filter (fun r => r.smoker == "yes")).map Record.charges = [] := by
          exact List.eq_nil_of_length_eq_zero (by omega)
        rw [this, mean_nil]
    simp only [smoker_multiplier, if_pos hlen, if_pos hnolen, hyes]
    set m := mean ((l.filter (fun r => r.smoker == "no")).map Record.charges) with hm
    have hmnn : 0 ≤ m := by
      refine mean_nonneg _ (fun q hq => ?_)
      obtain ⟨s, hs, rfl⟩ := List.mem_map.mp hq
      exact hpos s (List.mem_filter.mp hs).1
    split_ifs with hpos'
    · rfl
    · have : m = 0 := le_antisymm (not_lt.mp hpos') hmnn
      rw [this, div_zero]
  · intro h
    subst h
    rfl
  · intro hne hall
    have hlen : l.length > 0 := List.length_pos.mpr hne
    have hnil : l.filter (fun r => r.smoker == "no") = [] := by
      refine List.filter_eq_nil_iff.mpr (fun r hr => ?_)
      simp [hall r hr]
    have hnolen : ¬ ((l.filter (fun r => r.smoker == "no")).map Record.charges).length > 0 := by
      rw [hnil]
      simp
    have hyes :
        (if ((l.filter (fun r => r.smoker == "yes")).map Record.charges).length > 0 then
            mean ((l.filter (fun r => r.smoker == "yes")).map Record.charges) else 0) =
          mean ((l.filter (fun r => r.smoker == "yes")).map Record.charges) := by
      split_ifs with h
      · rfl
      · have : (l.filter (fun r => r.smoker == "yes")).map Record.charges = [] :=
          List.eq_nil_of_length_eq_zero (by omega)
        rw [this, mean_nil]
    simp only [smoker_multiplier, if_pos hlen, if_neg hnolen, hyes]
    norm_num
  · intro hall hmean
    have hne : l ≠ [] := by
      intro h
      subst h
      simp [mean_nil] at hmean
    have hlen : l.length > 0 := List.length_pos.mpr hne
    have hynil : l.filter (fun r => r.smoker == "yes") = [] := by
      refine List.filter_eq_nil_iff.mpr (fun r hr => ?_)
      simp [hall r hr]
    simp only [smoker_multiplier, if_pos hlen, hynil, List.map_nil, List.length_nil,
      gt_iff_lt, lt_self_iff_false, if_false]
    split_ifs <;> simp

/-- A concrete non-smoker row used to instantiate the metric theorems. -/
def rNo : Record :=
  { age := 40, sex := "female", bmi := 22, children := 0,
    smoker := "no", region := "southwest", charges := 100 }

/-- A concrete smoker row used to instantiate the metric theorems. -/
def rYes : Record :=
  { age := 50, sex := "male", bmi := 31, children := 2,
    smoker := "yes", region := "southeast", charges := 300 }

/-- Witness for C2: on the two-row set `[rNo, rYes]` the multiplier is
the ratio of the group means, `300 / 100 = 3`. -/
theorem smoker_multiplier_spec_witness : smoker_multiplier [rNo, rYes] = 3 :=
  ((smoker_multiplier_spec [rNo, rYes]
      (by intro r hr; fin_cases hr <;> norm_num [rNo, rYes])).1
    ⟨rNo, List.mem_cons_self rNo [rYes], rfl⟩).trans
    (by simp +decide only [rNo, rYes, List.filter_cons, List.filter_nil]
        norm_num [mean])

/-- The premium-calculator block of `healthcare_dashboard.py` (line 399):
`8434` for non-smokers, `32050` for smokers. -/
def base_premium (calc_smoker : String) : ℚ :=
  if calc_smoker = "no" then 8434 else 32050

/-- Line 402: `(calc_age - 39.2) * 250`. -/
def age_adjustment (calc_age : ℚ) : ℚ := (calc_age - 39.2) * 250

/-- Line 405: obesity premium `4623` when `calc_bmi >= 30`, else `0`. -/
def bmi_adjustment (calc_bmi : ℚ) : ℚ := if calc_bmi ≥ 30 then 4623 else 0

/-- Line 408: `calc_children * 150`. -/
def children_adjustment (calc_children : ℚ) : ℚ := calc_children * 150

/-- Lines 411–416 and 420: the regional-multiplier dict lookup
`regional_multipliers.get(calc_region, 1.0)`, with default `1.0` for a
region not in the table. -/
def regional_multiplier (calc_region : String) : ℚ :=
  if calc_region = "southeast" then 1.15
  else if calc_region = "northeast" then 1.08
  else if calc_region = "northwest" then 1.02
  else if calc_region = "southwest" then 1.00
  else 1.0

/-- Lines 419–421: `subtotal = base + age_adj + bmi_adj + children_adj`;
`total = subtotal * multiplier`, then floored by `max(1000, total)`. -/
def total_premium (calc_age calc_bmi : ℚ) (calc_smoker calc_region : String)
    (calc_children : ℚ) : ℚ :=
  let subtotal := base_premium calc_smoker + age_adjustment calc_age +
    bmi_adjustment calc_bmi + children_adjustment calc_children
  max 1000 (subtotal * regional_multiplier calc_region)

/-- C4: for every input — also outside the documented ranges — the
premium is the floored product
`max(1000, (base + age_adj + bmi_adj + children_adj) * regional_multiplier)`,
and it never falls below `1000`. (Totality over all of `ℚ × String` is
the no-exception guarantee of the embedding.) -/
theorem total_premium_spec (calc_age calc_bmi : ℚ) (calc_smoker calc_region : String)
    (calc_children : ℚ) :
    total_premium calc_age calc_bmi calc_smoker calc_region calc_children =
      max 1000 ((base_premium calc_smoker + age_adjustment calc_age +
        bmi_adjustment calc_bmi + children_adjustment calc_children) *
        regional_multiplier calc_region) ∧
    1000 ≤ total_premium calc_age calc_bmi calc_smoker calc_region calc_children := by
  refine ⟨rfl, ?_⟩
  unfold total_premium
  exact le_max_left _ _

/-- C5: the spec's worked example — age 35, bmi 25, non-smoker,
southwest, no children — gives base `8434`, age adjustment
`(35 − 39.2)·250 = −1050`, zero bmi and children adjustments,
multiplier `1.00`, and total `max(1000, 7384) = 7384`. -/
theorem total_premium_example :
    base_premium "no" = 8434 ∧
    age_adjustment 35 = (35 - 39.2) * 250 ∧
    age_adjustment 35 = -1050 ∧
    bmi_adjustment 25 = 0 ∧
    children_adjustment 0 = 0 ∧
    regional_multiplier "southwest" = 1 ∧
    total_premium 35 25 "no" "southwest" 0 = max 1000 7384 ∧
    total_premium 35 25 "no" "southwest" 0 = 7384 := by
  have hreg : regional_multiplier "southwest" = 1 := by
    unfold regional_multiplier
    rw [if_neg (by decide), if_neg (by decide), if_neg (by decide), if_pos rfl]
    norm_num
  have hbmi : bmi_adjustment 25 = 0 := by
    unfold bmi_adjustment
    rw [if_neg (by norm_num)]
  have htot : total_premium 35 25 "no" "southwest" 0 = max 1000 7384 := by
    unfold total_premium base_premium age_adjustment children_adjustment
    rw [if_pos rfl, hbmi, hreg]
    norm_num
  refine ⟨rfl, rfl, by norm_num [age_adjustment], hbmi, by norm_num [children_adjustment],
    hreg, htot, htot.trans (by norm_num)⟩

/-- `charges_band` of the bucketizer script (lines 11–23): the
threshold ladder of charge brackets. -/
def charges_band (val : ℚ) : String :=
  if val < 5000 then "<5,000"
  else if val < 10000 then "5,000–9,999"
  else if val < 20000 then "10,000–19,999"
  else if val < 30000 then "20,000–29,999"
  else if val < 50000 then "30,000–49,999"
  else "50,000+"

/-- `bmi_category` of the bucketizer script (lines 28–38). -/
def bmi_category (val : ℚ) : String :=
  if val < 18.5 then "<18.5"
  else if val < 25 then "18.5–24.9"
  else if val < 30 then "25–29.9"
  else if val < 35 then "30–34.9"
  else "35+"

/-- C6: `charges_band` and `bmi_category` realize exactly the spec's
threshold tables, every bracket closed at its lower edge and open at
its upper edge; in particular `charges_band 4999.99 = "<5,000"`,
`charges_band 5000 = "5,000–9,999"`, `bmi_category 29.9 = "25–29.9"`
and `bmi_category 30 = "30–34.9"`. -/
theorem charges_band_bmi_category_spec (x : ℚ) :
    (charges_band x = "<5,000" ↔ x < 5000) ∧
    (charges_band x = "5,000–9,999" ↔ 5000 ≤ x ∧ x < 10000) ∧
    (charges_band x = "10,000–19,999" ↔ 10000 ≤ x ∧ x < 20000) ∧
    (charges_band x = "20,000–29,999" ↔ 20000 ≤ x ∧ x < 30000) ∧
    (charges_band x = "30,000–49,999" ↔ 30000 ≤ x ∧ x < 50000) ∧
    (charges_band x = "50,000+" ↔ 50000 ≤ x) ∧
    (bmi_category x = "<18.5" ↔ x < 18.5) ∧
    (bmi_category x = "18.5–24.9" ↔ 18.5 ≤ x ∧ x < 25) ∧
    (bmi_category x = "25–29.9" ↔ 25 ≤ x ∧ x < 30) ∧
    (bmi_category x = "30–34.9" ↔ 30 ≤ x ∧ x < 35) ∧
    (bmi_category x = "35+" ↔ 35 ≤ x) ∧
    charges_band 4999.99 = "<5,000" ∧
    charges_band 5000 = "5,000–9,999" ∧
    bmi_category 29.9 = "25–29.9" ∧
    bmi_category 30 = "30–34.9" := by
  refine ⟨?_, ?_, ?_, ?_, ?_, ?_, ?_, ?_, ?_, ?_, ?_, ?_, ?_, ?_, ?_⟩
  · unfold charges_band
    split_ifs with h1 h2 h3 h4 h5 <;> simp +decide <;>
      first | linarith | (constructor <;> linarith) | (intro; linarith)
  · unfold charges_band
    split_ifs with h1 h2 h3 h4 h5 <;> simp +decide <;>
      first | linarith | (constructor <;> linarith) | (intro; linarith)
  · unfold charges_band
    split_ifs with h1 h2 h3 h4 h5 <;> simp +decide <;>
      first | linarith | (constructor <;> linarith) | (intro; linarith)
  · unfold charges_band
    split_ifs with h1 h2 h3 h4 h5 <;> simp +decide <;>
      first | linarith | (constructor <;> linarith) | (intro; linarith)
  · unfold charges_band
    split_ifs with h1 h2 h3 h4 h5 <;> simp +decide <;>
      first | linarith | (constructor <;> linarith) | (intro; linarith)
  · unfold charges_band
    split_ifs with h1 h2 h3 h4 h5 <;> simp +decide <;>
      first | linarith | (constructor <;> linarith) | (intro; linarith)
  · unfold bmi_category
    split_ifs with h1 h2 h3 h4 <;> simp +decide <;>
      first | linarith | (constructor <;> linarith) | (intro; linarith)
  · unfold bmi_category
    split_ifs with h1 h2 h3 h4 <;> simp +decide <;>
      first | linarith | (constructor <;> linarith) | (intro; linarith)
  · unfold bmi_category
    split_ifs with h1 h2 h3 h4 <;> simp +decide <;>
      first | linarith | (constructor <;> linarith) | (intro; linarith)
  · unfold bmi_category
    split_ifs with h1 h2 h3 h4 <;> simp +decide <;>
      first | linarith | (constructor <;> linarith) | (intro; linarith)
  · unfold bmi_category
    split_ifs with h1 h2 h3 h4 <;> simp +decide <;>
      first | linarith | (constructor <;> linarith) | (intro; linarith)
  · unfold charges_band
    rw [if_pos (by norm_num)]
  · unfold charges_band
    rw [if_neg (by norm_num), if_pos (by norm_num)]
  · unfold bmi_category
    rw [if_neg (by norm_num), if_neg (by norm_num), if_pos (by norm_num)]
  · unfold bmi_category
    rw [if_neg (by norm_num), if_neg (by norm_num), if_neg (by norm_num),
      if_pos (by norm_num)]

/-- The `pd.cut` age grouping of the dashboard's distribution chart
(lines 294–301): `bins=[17, 30, 40, 50, 65]` with pandas' default
`right=True` and `include_lowest=True`, i.e. the intervals
`[17,30], (30,40], (40,50], (50,65]`, labeled
`18-29, 30-39, 40-49, 50+`; an age in no interval gets no label
(pandas `NaN`, later dropped by the observed-only groupby). -/
def age_group_cut (age : ℚ) : Option String :=
  if 17 ≤ age ∧ age ≤ 30 then some "18-29"
  else if 30 < age ∧ age ≤ 40 then some "30-39"
  else if 40 < age ∧ age ≤ 50 then some "40-49"
  else if 50 < age ∧ age ≤ 65 then some "50+"
  else none

/-- The age bins the way the spec (and the chart's own labels) state
them: `[18,30), [30,40), [40,50), [50,65]`, each closed at its lower
edge and open at its upper edge except the final bin. -/
def age_group_spec_bins (age : ℚ) : Option String :=
  if 18 ≤ age ∧ age < 30 then some "18-29"
  else if 30 ≤ age ∧ age < 40 then some "30-39"
  else if 40 ≤ age ∧ age < 50 then some "40-49"
  else if 50 ≤ age ∧ age ≤ 65 then some "50+"
  else none

/-- C3: at age 30 the dashboard's `pd.cut` grouping (right-closed
pandas intervals) files the record under `"18-29"`, while the bins the
labels and the spec describe put 30 under `"30-39"`: the code
contradicts its own labels at every interior bin edge. -/
theorem age_group_cut_at_30 :
    age_group_cut 30 = some "18-29" ∧
    age_group_spec_bins 30 = some "30-39" ∧
    age_group_cut 30 ≠ age_group_spec_bins 30 := by
  have h1 : age_group_cut 30 = some "18-29" := by
    unfold age_group_cut
    rw [if_pos (by norm_num)]
  have h2 : age_group_spec_bins 30 = some "30-39" := by
    unfold age_group_spec_bins
    rw [if_neg (by norm_num), if_pos (by norm_num)]
  refine ⟨h1, h2, ?_⟩
  rw [h1, h2]
  simp +decide

/-- Outcome of one `pd.read_csv(file)` attempt in `load_data`:
a parsed table, a `FileNotFoundError`, or any other parse failure. -/
inductive ReadResult where
  | ok (df : List Record)
  | notFound
  | malformed
deriving DecidableEq, Repr

/-- `load_data` of `healthcare_dashboard.py` (lines 41–66), over an
abstract filesystem `read`: iterate the candidate names; a
`FileNotFoundError` hits `continue`, a parsed table is returned, and
any other failure escapes the for-loop to the outer handler, which
returns the sample table; when the loop exhausts the candidates the
sample table is returned as well. `create_sample_data()` (seeded numpy
generation) is abstracted as the parameter `sample`. -/
def load_data (read : String → ReadResult) : List String → List Record → List Record
  | [], sample => sample
  | f :: rest, sample =>
    match read f with
    | .ok df => df
    | .notFound => load_data read rest sample
    | .malformed => sample

/-- The candidate file names of `load_data` (lines 44–50), in priority
order. -/
def file_options : List String :=
  ["insurance_etl_final.csv", "insurance_dashboard_ready.csv",
   "insurancedashboard.csv", "insurance_clean_final.csv", "insurance.csv"]

/-- The loader the claim describes: try each candidate in order,
skipping a failed candidate whether it is absent or malformed, and
return the first successfully parsed table; sample data only when every
candidate fails. -/
def load_data_claim (read : String → ReadResult) : List String → List Record → List Record
  | [], sample => sample
  | f :: rest, sample =>
    match read f with
    | .ok df => df
    | _ => load_data_claim read rest sample

/-- A concrete parsed row for the loader scenario. -/
def okRow : Record :=
  { age := 19, sex := "female", bmi := 27.9, children := 0,
    smoker := "yes", region := "southwest", charges := 16884.92 }

/-- C3 is settled above; this is the counterexample for C7: when the
first candidate exists but is malformed and the second parses fine,
`load_data` returns the sample data — it does not reach the second
candidate, unlike the loader the claim describes. -/
def readCex (f : String) : ReadResult :=
  if f = "insurance_etl_final.csv" then ReadResult.malformed
  else if f = "insurance_dashboard_ready.csv" then ReadResult.ok [okRow]
  else ReadResult.notFound

theorem load_data_counterexample :
    load_data readCex file_options [] = [] ∧
    load_data_claim readCex file_options [] = [okRow] ∧
    load_data readCex file_options [] ≠ load_data_claim readCex file_options [] := by
  refine ⟨rfl, rfl, ?_⟩
  intro h
  rw [show load_data readCex file_options [] = [] from rfl,
    show load_data_claim readCex file_options [] = [okRow] from rfl] at h
  exact List.noConfusion h

/-- Recognizer for the `FileNotFoundError` outcome. -/
def is_notFound : ReadResult → Bool
  | ReadResult.notFound => true
  | _ => false

/-- C7 (amended): the loader skips absent candidates only; the first
candidate that is not absent decides the outcome — its table when it
parses, the sample data when it is malformed (later candidates are
never tried) — and the sample data is returned when every candidate is
absent. It always returns a table; no failure escapes. -/
theorem load_data_amended (read : String → ReadResult) (files : List String)
    (sample : List Record) :
    load_data read files sample =
      match files.find? (fun f => !(is_notFound (read f))) with
      | none => sample
      | some f =>
        match read f with
        | ReadResult.ok df => df
        | _ => sample := by
  induction files with
  | nil => rfl
  | cons f rest ih =>
    rw [List.find?_cons]
    cases hf : read f with
    | ok df =>
      simp only [load_data, hf, is_notFound, Bool.not_false]
    | notFound =>
      simp only [load_data, hf, is_notFound, Bool.not_true]
      exact ih
    | malformed =>
      simp only [load_data, hf, is_notFound, Bool.not_false]

/-- `age_group` of the bucketizer script (lines 43–55): numeric age
bands. -/
def age_group (val : ℚ) : String :=
  if val < 26 then "18–25"
  else if val < 36 then "26–35"
  else if val < 46 then "36–45"
  else if val < 56 then "46–55"
  else if val < 66 then "56–65"
  else "66+"

/-- `age_group_label` of the bucketizer script (lines 60–72):
qualitative labels on the same edges. -/
def age_group_label (val : ℚ) : String :=
  if val < 26 then "Young Adult"
  else if val < 36 then "Adult"
  else if val < 46 then "Middle Age"
  else if val < 56 then "Senior"
  else if val < 66 then "Elder"
  else "Super Senior"

/-- `Series.round(2)` of pandas/numpy on the exact rational value:
scale by 100, round half to even, scale back. -/
def round2 (x : ℚ) : ℚ :=
  let y := x * 100
  let n : ℤ := ⌊y⌋
  let m : ℤ :=
    if y - n < 1 / 2 then n
    else if (1 : ℚ) / 2 < y - n then n + 1
    else if n % 2 = 0 then n else n + 1
  (m : ℚ) / 100

/-- A `Record` augmented with the four derived columns the bucketizer
writes (`powerbigroupeddata.csv` schema). -/
structure BucketedRecord where
  age : ℚ
  sex : String
  bmi : ℚ
  children : ℚ
  smoker : String
  region : String
  charges : ℚ
  charges_band : String
  bmi_category : String
  age_group : String
  age_group_label : String
deriving DecidableEq, Repr

/-- Line 8 of the bucketizer script:
`df['charges'] = df['charges'].round(2)`. -/
def round_charges (df : List Record) : List Record :=
  df.map (fun r => { r with charges := round2 r.charges })

/-- Lines 25, 40, 57 and 74: the four derived columns, each a pure
function of the current dataframe's fields (charges already rounded). -/
def add_buckets (df : List Record) : List BucketedRecord :=
  df.map (fun r =>
    { age := r.age, sex := r.sex, bmi := r.bmi, children := r.children,
      smoker := r.smoker, region := r.region, charges := r.charges,
      charges_band := charges_band r.charges,
      bmi_category := bmi_category r.bmi,
      age_group := age_group r.age,
      age_group_label := age_group_label r.age })

/-- The bucketizer pipeline between the read on line 5 and the write on
line 77. -/
def bucketize (df : List Record) : List BucketedRecord :=
  add_buckets (round_charges df)

/-- C8: the output table is exactly the input rows, in order: per row
the seven original columns are kept unchanged except `charges`, which
is rounded to 2 decimals before bucketing, and exactly the four derived
columns are added, `charges_band` computed from the rounded charges;
the row count is preserved (and the embedding is pure, so the input
list itself is untouched). -/
theorem bucketize_spec (df : List Record) :
    bucketize df =
      df.map (fun r =>
        { age := r.age, sex := r.sex, bmi := r.bmi, children := r.children,
          smoker := r.smoker, region := r.region,
          charges := round2 r.charges,
          charges_band := charges_band (round2 r.charges),
          bmi_category := bmi_category r.bmi,
          age_group := age_group r.age,
          age_group_label := age_group_label r.age }) ∧
    (bucketize df).length = df.length := by
  constructor
  · simp only [bucketize, add_buckets, round_charges, List.map_map]
    rfl
  · simp [bucketize, add_buckets, round_charges]
